import Mathlib

/-!
Verification of `main.py` of the `quizzs` repository (the e-commerce
catalog/review variant).  The Python functions are shallowly embedded as
Lean definitions: review texts are `List Char`, Python exceptions are the
`PyErr` type threaded through `Except`, Firestore is a read interface plus
explicit write outcomes, and Python floats (as far as the program compares
them) are the `PyFloat` type with IEEE-style comparisons.
-/

/-! ## Python-level infrastructure -/

/-- Exceptions the embedded code can raise.  `except Exception` in the
source catches every one of them. -/
inductive PyErr where
  | nameError (n : String)
  | valueError (m : String)
  | other (m : String)
deriving DecidableEq, Repr

/-- Rendering of an exception as interpolated into `f"... {e}"` messages. -/
def errStr : PyErr → String
  | PyErr.nameError n => "NameError: name " ++ n ++ " is not defined"
  | PyErr.valueError m => "ValueError: " ++ m
  | PyErr.other m => m

/-- Python float values, as far as this program observes them: a finite
value (modelled exactly by a rational), NaN, or a signed infinity. -/
inductive PyFloat where
  | finite (q : ℚ)
  | nan
  | inf
  | ninf
deriving DecidableEq, Repr

/-- IEEE-754 comparison `a <= b` (any comparison with NaN is false). -/
def PyFloat.le : PyFloat → PyFloat → Bool
  | PyFloat.nan, _ => false
  | _, PyFloat.nan => false
  | PyFloat.ninf, _ => true
  | _, PyFloat.inf => true
  | PyFloat.inf, _ => false
  | _, PyFloat.ninf => false
  | PyFloat.finite a, PyFloat.finite b => a ≤ b

/-- IEEE-754 comparison `a < b` (any comparison with NaN is false). -/
def PyFloat.lt : PyFloat → PyFloat → Bool
  | PyFloat.nan, _ => false
  | _, PyFloat.nan => false
  | PyFloat.ninf, PyFloat.ninf => false
  | PyFloat.ninf, _ => true
  | PyFloat.inf, _ => false
  | _, PyFloat.inf => true
  | _, PyFloat.ninf => false
  | PyFloat.finite a, PyFloat.finite b => a < b

/-! ## `predict_sentiment` (main.py lines 11-32)

Python strings are `List Char`; `str.lower` is modelled on the basic-latin
range (every keyword below is basic latin); `str.count` counts
non-overlapping occurrences scanning from the left, which we implement
with a fuel argument equal to the length of the scanned string so that the
definition computes by kernel reduction. -/

/-- ASCII model of Python `str.lower` on one character. -/
def pyToLower (c : Char) : Char :=
  if 65 ≤ c.toNat ∧ c.toNat ≤ 90 then Char.ofNat (c.toNat + 32) else c

/-- Model of Python `str.lower`. -/
def pyLower (s : List Char) : List Char := s.map pyToLower

/-- Fuel-driven scanner behind `countOcc`.  One unit of fuel is spent per
examined position; when a match is found the scan resumes after it
(non-overlapping), exactly as Python `str.count` does. -/
def countOccF (pat : List Char) : Nat → List Char → Nat
  | _, [] => if pat.isEmpty then 1 else 0
  | 0, _ :: _ => 0
  | fuel + 1, c :: rest =>
    if pat.isEmpty then 1 + countOccF pat fuel rest
    else if pat.isPrefixOf (c :: rest) then
      1 + countOccF pat fuel (rest.drop (pat.length - 1))
    else countOccF pat fuel rest

/-- Model of Python `s.count(pat)`: the number of non-overlapping
occurrences of `pat` in `s`, scanning left to right.  `s.length` fuel
suffices because every recursive call drops at least one character. -/
def countOcc (pat s : List Char) : Nat := countOccF pat s.length s

/-- main.py line 20. -/
def positive_keywords : List String :=
  ["great", "excellent", "love", "amazing", "fantastic", "best", "perfect",
   "awesome", "happy", "wonderful"]

/-- main.py line 21. -/
def negative_keywords : List String :=
  ["bad", "terrible", "disappointing", "worst", "awful", "horrible", "poor",
   "unusable", "unhappy", "broke"]

/-- main.py line 23: `sum(text.count(word) for word in positive_keywords)`. -/
def posCount (text : List Char) : Nat :=
  (positive_keywords.map fun w => countOcc w.data text).sum

/-- main.py line 24: `sum(text.count(word) for word in negative_keywords)`. -/
def negCount (text : List Char) : Nat :=
  (negative_keywords.map fun w => countOcc w.data text).sum

/-- main.py lines 11-32, `predict_sentiment`.  `if not review_text` on a
string is the emptiness test. -/
def predict_sentiment (review_text : List Char) : String × String :=
  if review_text = [] then ("neutral", "😐")
  else
    let text := pyLower review_text
    let pos_count := posCount text
    let neg_count := negCount text
    if pos_count > neg_count + 1 then ("positive", "😊")
    else if neg_count > pos_count + 1 then ("negative", "😞")
    else ("neutral", "😐")

/-! ## Module scope of main.py

Lines 1-4 import `st`, `json`, `random`, `Client` and `DocumentSnapshot`.
The name `firestore` is imported only *inside* `initialize_firebase`
(line 69), so it is never bound at module scope; referring to it from
`add_product` or `add_review` raises `NameError`. -/

/-- The names bound in the module namespace of main.py. -/
def moduleGlobals : List String :=
  ["st", "json", "random", "Client", "DocumentSnapshot", "predict_sentiment",
   "APP_ID", "FIREBASE_CONFIG", "AUTH_TOKEN", "initialize_firebase", "db",
   "USER_ID", "PRODUCTS_COLLECTION", "add_product", "get_all_products",
   "add_review", "product_display_page", "add_product_page", "main"]

/-- Whether the name `firestore` resolves at module scope. -/
def firestoreInScope : Bool := moduleGlobals.contains "firestore"

/-- main.py line 45: the fallback used when `__app_id` is undefined. -/
def APP_ID : String := "default-ecommerce-app"

/-- main.py line 123. -/
def PRODUCTS_COLLECTION : String :=
  "artifacts/" ++ APP_ID ++ "/public/data/products"

/-! ## Firestore values and documents -/

/-- Values stored in the documents this program builds. -/
inductive FSVal where
  | str (s : String)
  | float (f : PyFloat)
  | serverTimestamp
  | docList (docs : List (List (String × FSVal)))

/-- A document, as the Python dict literals build it: ordered key/value
pairs. -/
abbrev FSDoc := List (String × FSVal)

/-- Python dict assignment `d[k] = v`: replaces the value in place if the
key exists, appends otherwise. -/
def dictSet : FSDoc → String → FSVal → FSDoc
  | [], k, v => [(k, v)]
  | (k0, v0) :: rest, k, v =>
    if k0 = k then (k0, v) :: rest else (k0, v0) :: dictSet rest k v

/-- The read interface of the Firestore database handle: the products
stream and, per product id, the reviews stream, each of which can raise. -/
structure FS where
  products : Except PyErr (List (String × FSDoc))
  reviews : String → Except PyErr (List FSDoc)

/-! ## Module initialization (main.py lines 42-123) -/

/-- A Python value at the module top level: `None`, the database handle,
or a string. -/
inductive PyObj where
  | noneV
  | dbV (fs : FS)
  | strV (s : String)

/-- main.py lines 48-52: `FIREBASE_CONFIG = json.loads(__firebase_config)`
guarded by `except (NameError, json.JSONDecodeError)`.  The argument is
`none` when `__firebase_config` is undefined and `some (.error e)` when it
is defined but not valid JSON.  Returns the resulting config together with
the `st.error` messages shown. -/
def parseConfig (raw : Option (Except PyErr (List (String × String)))) :
    List (String × String) × List String :=
  match raw with
  | some (Except.ok cfg) => (cfg, [])
  | _ => ([], ["Firebase config not found. Data persistence is disabled."])

/-- main.py lines 60-120, `initialize_firebase`.  `clientResult` stands for
the outcome of the `firebase_admin` imports, credential setup and
`firestore.client()` call inside the `try` block; `randId` is the value of
`random.randint(1000, 9999)`.  The function returns the tuple of values of
the Python `return` statement (note line 64 returns THREE values, lines 116
and 120 return TWO) together with the `st.error` messages shown. -/
def initialize_firebase (cfg : List (String × String))
    (clientResult : Except PyErr FS) (authToken : Option String)
    (randId : Nat) : List PyObj × List String :=
  if cfg.isEmpty then ([PyObj.noneV, PyObj.noneV, PyObj.noneV], [])
  else
    match clientResult with
    | Except.ok fs =>
      let user_id :=
        match authToken with
        | some t => "auth_" ++ (t.take 8)
        | none => "anonymous_" ++ toString randId
      ([PyObj.dbV fs, PyObj.strV user_id], [])
    | Except.error e =>
      ([PyObj.noneV, PyObj.noneV],
       ["Could not initialize Firebase/Firestore Client. Error: " ++ errStr e])

/-- Python tuple unpacking `a, b = t`: raises `ValueError` unless the
tuple has exactly two components (main.py line 122 performs this on the
value returned by `initialize_firebase`). -/
def unpack2 : List PyObj → Except PyErr (PyObj × PyObj)
  | [a, b] => Except.ok (a, b)
  | l =>
    if l.length > 2 then
      Except.error (PyErr.valueError "too many values to unpack (expected 2)")
    else
      Except.error (PyErr.valueError
        ("not enough values to unpack (expected 2, got " ++ toString l.length ++ ")"))

/-! ## `add_product` (main.py lines 125-144) -/

/-- Outcome of one of the form-handler functions: its return value, the
`st.error` messages it showed, and the Firestore writes it performed
(collection path and document). -/
structure AddResult where
  retval : Bool
  errorsShown : List String
  writes : List (String × FSDoc)

/-- The `try` block of `add_product` (lines 130-141).  Building
`product_data` evaluates `firestore.SERVER_TIMESTAMP`, which raises
`NameError` when `firestore` is not in scope — before any write is
attempted.  `price` arrives as a float from the page, so `float(price)`
returns it unchanged.  `writeOutcome` stands for the result of
`db.collection(PRODUCTS_COLLECTION).add(product_data)`. -/
def add_product_try (userId : String) (writeOutcome : Except PyErr Unit)
    (name : String) (price : PyFloat) (description image_url : String) :
    Except PyErr FSDoc :=
  if firestoreInScope then
    let product_data : FSDoc :=
      [("name", FSVal.str name), ("price", FSVal.float price),
       ("description", FSVal.str description),
       ("image_url", FSVal.str image_url), ("created_by", FSVal.str userId),
       ("created_at", FSVal.serverTimestamp)]
    match writeOutcome with
    | Except.ok _ => Except.ok product_data
    | Except.error e => Except.error e
  else Except.error (PyErr.nameError "firestore")

/-- main.py lines 125-144, `add_product`.  The result is `Except`-valued so
that "the function never raises" is a provable statement rather than one
true by the embedding: the `except Exception` clause catches every
`PyErr`, so every path ends in `Except.ok`. -/
def add_product (db : Option FS) (userId : String)
    (writeOutcome : Except PyErr Unit) (name : String) (price : PyFloat)
    (description image_url : String) : Except PyErr AddResult :=
  match db with
  | none => Except.ok ⟨false, ["Database not initialized."], []⟩
  | some _ =>
    match add_product_try userId writeOutcome name price description image_url with
    | Except.ok doc => Except.ok ⟨true, [], [(PRODUCTS_COLLECTION, doc)]⟩
    | Except.error e =>
      Except.ok ⟨false, ["Error adding product: " ++ errStr e], []⟩

/-! ## `add_review` (main.py lines 172-194) -/

/-- The `try` block of `add_review` (lines 178-191): computes the
sentiment, then builds `review_data`, whose `created_at` entry evaluates
`firestore.SERVER_TIMESTAMP` and hence raises `NameError` when `firestore`
is not in scope.  `writeOutcome` stands for the result of the `.add` call
on the reviews subcollection. -/
def add_review_try (userId : String) (writeOutcome : Except PyErr Unit)
    (reviewer_name : String) (review_text : List Char) :
    Except PyErr FSDoc :=
  let se := predict_sentiment review_text
  if firestoreInScope then
    let review_data : FSDoc :=
      [("reviewer", FSVal.str reviewer_name),
       ("text", FSVal.str (String.mk review_text)),
       ("sentiment", FSVal.str se.1), ("emoji", FSVal.str se.2),
       ("created_by", FSVal.str userId), ("created_at", FSVal.serverTimestamp)]
    match writeOutcome with
    | Except.ok _ => Except.ok review_data
    | Except.error e => Except.error e
  else Except.error (PyErr.nameError "firestore")

/-- main.py lines 172-194, `add_review`. -/
def add_review (db : Option FS) (userId : String)
    (writeOutcome : Except PyErr Unit) (product_id reviewer_name : String)
    (review_text : List Char) : Except PyErr AddResult :=
  match db with
  | none => Except.ok ⟨false, ["Database not initialized."], []⟩
  | some _ =>
    match add_review_try userId writeOutcome reviewer_name review_text with
    | Except.ok doc =>
      Except.ok ⟨true, [],
        [(PRODUCTS_COLLECTION ++ "/" ++ product_id ++ "/reviews", doc)]⟩
    | Except.error e =>
      Except.ok ⟨false, ["Error adding review: " ++ errStr e], []⟩

/-! ## `get_all_products` (main.py lines 146-170) -/

/-- The loop body of `get_all_products` (lines 155-164): for each product
document, fetch its reviews subcollection, set `id` and `reviews` on the
dict, and append it.  An exception from any reviews stream aborts the
whole computation. -/
def buildProducts (fs : FS) :
    List (String × FSDoc) → Except PyErr (List FSDoc)
  | [] => Except.ok []
  | (pid, pdata) :: rest => do
    let revs ← fs.reviews pid
    let pd := dictSet (dictSet pdata "id" (FSVal.str pid)) "reviews"
      (FSVal.docList revs)
    let tail ← buildProducts fs rest
    Except.ok (pd :: tail)

/-- main.py lines 146-170, `get_all_products`: returns the product list
together with the `st.error` messages shown. -/
def get_all_products (db : Option FS) : List FSDoc × List String :=
  match db with
  | none => ([], [])
  | some fs =>
    match (do
        let ps ← fs.products
        buildProducts fs ps : Except PyErr (List FSDoc)) with
    | Except.ok l => (l, [])
    | Except.error e => ([], ["Error fetching products: " ++ errStr e])

/-! ## The add-product form handler (main.py lines 305-318) -/

/-- What the submission branch of `add_product_page` does with one
submission: either shows an error, or calls `add_product`. -/
inductive PageAction where
  | errorShown (msg : String)
  | callAdd (name : String) (price : PyFloat) (description image_url : String)
deriving Repr

/-- main.py lines 305-318: the `if submitted:` branch of
`add_product_page`.  `parsed` stands for the outcome of
`float(price_str)`; a `ValueError` from it is caught by the dedicated
handler on line 317.  Note the guard on line 308 is `price <= 0` under
IEEE comparison.  (For example `float("nan")` succeeds and NaN compares
false against 0.) -/
def add_product_page_submit (parsed : Except PyErr PyFloat)
    (name description image_url : String) : PageAction :=
  match parsed with
  | Except.error _ =>
    PageAction.errorShown "Invalid price format. Please enter a valid number."
  | Except.ok price =>
    if name = "" ∨ description = "" ∨ PyFloat.le price (PyFloat.finite 0) then
      PageAction.errorShown
        "Please fill in all fields correctly (Name, Description, Price > 0)."
    else PageAction.callAdd name price description image_url

/-! ## Trust score -/

/-- Modelled from the spec: no trust-score code is under src/ (the only
source file is the e-commerce variant); the glossary defines the trust
score as "an ad-hoc weighted sum (0-100) of independently simulated or
heuristically derived sub-scores".  A scoring configuration is a list of
(weight, sub-score) pairs and the score is their weighted sum. -/
def trust_score (ws : List (ℚ × ℚ)) : ℚ :=
  (ws.map fun p => p.1 * p.2).sum

/-- A concrete database handle used to instantiate theorems. -/
def sampleFS : FS :=
  { products := Except.ok [], reviews := fun _ => Except.ok [] }

/-- A database handle whose only product has a reviews stream that
raises. -/
def badFS : FS :=
  { products := Except.ok [("p1", [("name", FSVal.str "Widget")])],
    reviews := fun _ => Except.error (PyErr.other "deadline exceeded") }

/-! ## Theorems -/

/-- C8: for the empty review text (the only falsy `str` value),
`predict_sentiment` returns the neutral result of its early-return
branch. -/
theorem C8_empty_text_neutral : predict_sentiment [] = ("neutral", "😐") := rfl

/-- C2 (code bug): with `__firebase_config` absent or invalid JSON, the
config is made empty and the persistence-disabled message is shown
(lines 48-52) — but `initialize_firebase` then returns the THREE-tuple
`(None, None, None)` (line 64), so the module-level two-variable unpacking
`db, USER_ID = initialize_firebase()` (line 122) raises an uncaught
`ValueError` instead of continuing with `db = None`. -/
theorem C2_empty_config_unpack_crash :
    parseConfig none =
      ([], ["Firebase config not found. Data persistence is disabled."]) ∧
    parseConfig (some (Except.error (PyErr.other "Expecting value"))) =
      ([], ["Firebase config not found. Data persistence is disabled."]) ∧
    unpack2
        (initialize_firebase [] (Except.error (PyErr.other "unused")) none
          1234).1 =
      Except.error (PyErr.valueError "too many values to unpack (expected 2)") :=
  ⟨rfl, rfl, rfl⟩

/-- C3 (code bug): with the database initialized, `add_product` does NOT
write the document and return `True`: building `product_data` evaluates
`firestore.SERVER_TIMESTAMP` (line 137) and `firestore` is not bound at
module scope, so a `NameError` is raised, caught by `except Exception`,
and the call returns `False` having written nothing. -/
theorem C3_add_product_name_error :
    add_product (some sampleFS) "auth_user1" (Except.ok ()) "Widget"
        (PyFloat.finite 49) "A nice widget" "https://img.example/w.png" =
      Except.ok
        ⟨false,
         ["Error adding product: NameError: name firestore is not defined"],
         []⟩ := rfl

/-- C4 (code bug): with the database initialized, `add_review` computes
the sentiment but then hits the same unbound `firestore` name while
building `review_data` (line 187), so no review document is ever written
and the call returns `False`. -/
theorem C4_add_review_name_error :
    add_review (some sampleFS) "auth_user1" (Except.ok ()) "p1" "Bob"
        "great great great".data =
      Except.ok
        ⟨false,
         ["Error adding review: NameError: name firestore is not defined"],
         []⟩ := rfl

/-- C1: `predict_sentiment` lower-cases the text, counts substring
occurrences of the ten positive and ten negative keywords, and returns
the positive result exactly when the positive count exceeds the negative
count by more than 1, the negative result exactly when the negative count
exceeds the positive count by more than 1, and the neutral result
otherwise.  (The early return for the empty text agrees with the counting
branch, whose counts are then both 0.) -/
theorem C1_predict_sentiment_spec (t : List Char) :
    (predict_sentiment t = ("positive", "😊") ↔
      negCount (pyLower t) + 1 < posCount (pyLower t)) ∧
    (predict_sentiment t = ("negative", "😞") ↔
      posCount (pyLower t) + 1 < negCount (pyLower t)) ∧
    (predict_sentiment t = ("neutral", "😐") ↔
      ¬(negCount (pyLower t) + 1 < posCount (pyLower t)) ∧
      ¬(posCount (pyLower t) + 1 < negCount (pyLower t))) ∧
    positive_keywords.length = 10 ∧ negative_keywords.length = 10 := by
  by_cases h : t = []
  · subst h; decide
  · simp only [predict_sentiment, if_neg h, gt_iff_lt]
    refine ⟨?_, ?_, ?_, rfl, rfl⟩ <;>
      by_cases h1 : negCount (pyLower t) + 1 < posCount (pyLower t) <;>
      by_cases h2 : posCount (pyLower t) + 1 < negCount (pyLower t) <;>
      (simp [h1, h2]; try omega)

/-- Characters below the surrogate range survive a `Char.ofNat`
round-trip. -/
theorem char_toNat_ofNat (n : Nat) (h : n < 55296) :
    (Char.ofNat n).toNat = n := by
  unfold Char.ofNat
  rw [dif_pos (Or.inl h)]
  rfl

/-- Lower-casing a character twice is the same as doing it once. -/
theorem pyToLower_idem (c : Char) : pyToLower (pyToLower c) = pyToLower c := by
  unfold pyToLower
  by_cases h : 65 ≤ c.toNat ∧ c.toNat ≤ 90
  · rw [if_pos h, char_toNat_ofNat (c.toNat + 32) (by omega), if_neg (by omega)]
  · rw [if_neg h, if_neg h]

/-- Lower-casing a string is idempotent. -/
theorem pyLower_idem (t : List Char) : pyLower (pyLower t) = pyLower t := by
  simp [pyLower, Function.comp, pyToLower_idem]

/-- Two texts with the same lower-casing get the same sentiment. -/
theorem predict_sentiment_congr (t1 t2 : List Char)
    (h : pyLower t1 = pyLower t2) :
    predict_sentiment t1 = predict_sentiment t2 := by
  have hlen : t1.length = t2.length := by
    have := congrArg List.length h
    simpa [pyLower] using this
  by_cases h1 : t1 = []
  · subst h1
    have h2 : t2 = [] := by
      cases t2 with
      | nil => rfl
      | cons a l => simp at hlen
    subst h2; rfl
  · have h2 : t2 ≠ [] := by
      intro hh
      subst hh
      exact h1 (List.eq_nil_of_length_eq_zero hlen)
    simp only [predict_sentiment, if_neg h1, if_neg h2, h]

/-- C9: `predict_sentiment` is case-insensitive: every text gets the same
result as its lower-cased form, and any two texts with the same
lower-casing (texts differing only in letter case) get the same result. -/
theorem C9_case_insensitive :
    (∀ t, predict_sentiment t = predict_sentiment (pyLower t)) ∧
    (∀ t1 t2, pyLower t1 = pyLower t2 →
      predict_sentiment t1 = predict_sentiment t2) :=
  ⟨fun t => predict_sentiment_congr t (pyLower t) (pyLower_idem t).symm,
   predict_sentiment_congr⟩

/-- Witness for C9 at two concrete casings of the same text. -/
theorem C9_case_insensitive_witness :
    pyLower "GReat LOVE wow".data = pyLower "gReaT lOvE wOw".data ∧
    predict_sentiment "GReat LOVE wow".data =
      predict_sentiment "gReaT lOvE wOw".data :=
  ⟨by decide,
   C9_case_insensitive.2 "GReat LOVE wow".data "gReaT lOvE wOw".data
     (by decide)⟩

/-- C5: `add_product` and `add_review` always return a value — no path
re-raises (their `except Exception` clause catches every exception) —
returning `False` with an error message shown when the database handle is
`None`, and likewise `False` with an error message shown whenever the
database is initialized and the Firestore write would raise. -/
theorem C5_no_exception_escape :
    ∀ (db : Option FS) (uid : String) (w : Except PyErr Unit) (n : String)
      (p : PyFloat) (d u pid rev : String) (txt : List Char),
      (∃ r, add_product db uid w n p d u = Except.ok r) ∧
      (∃ r, add_review db uid w pid rev txt = Except.ok r) ∧
      (db = none →
        add_product db uid w n p d u =
          Except.ok ⟨false, ["Database not initialized."], []⟩ ∧
        add_review db uid w pid rev txt =
          Except.ok ⟨false, ["Database not initialized."], []⟩) ∧
      (∀ fs e, db = some fs → w = Except.error e →
        (∃ msg, add_product db uid w n p d u =
          Except.ok ⟨false, [msg], []⟩) ∧
        (∃ msg, add_review db uid w pid rev txt =
          Except.ok ⟨false, [msg], []⟩)) := by
  intro db uid w n p d u pid rev txt
  cases db with
  | none =>
    refine ⟨⟨_, rfl⟩, ⟨_, rfl⟩, fun _ => ⟨rfl, rfl⟩, ?_⟩
    intro fs e hfs
    cases hfs
  | some fs =>
    refine ⟨⟨_, rfl⟩, ⟨_, rfl⟩, ?_, ?_⟩
    · intro hh; cases hh
    · intro fs2 e _ _
      exact ⟨⟨_, rfl⟩, ⟨_, rfl⟩⟩

/-- Witness for C5: a `None` database and a raising write, both handled. -/
theorem C5_no_exception_escape_witness :
    (add_product none "u" (Except.ok ()) "n" (PyFloat.finite 1) "d" "i" =
      Except.ok ⟨false, ["Database not initialized."], []⟩) ∧
    (∃ msg, add_product (some sampleFS) "u" (Except.error (PyErr.other "boom"))
        "n" (PyFloat.finite 1) "d" "i" = Except.ok ⟨false, [msg], []⟩) ∧
    (∃ msg, add_review (some sampleFS) "u" (Except.error (PyErr.other "boom"))
        "p1" "Bob" "ok".data = Except.ok ⟨false, [msg], []⟩) :=
  ⟨((C5_no_exception_escape none "u" (Except.ok ()) "n" (PyFloat.finite 1) "d"
      "i" "p1" "Bob" "ok".data).2.2.1 rfl).1,
   ((C5_no_exception_escape (some sampleFS) "u"
      (Except.error (PyErr.other "boom")) "n" (PyFloat.finite 1) "d" "i" "p1"
      "Bob" "ok".data).2.2.2 sampleFS (PyErr.other "boom") rfl rfl).1,
   ((C5_no_exception_escape (some sampleFS) "u"
      (Except.error (PyErr.other "boom")) "n" (PyFloat.finite 1) "d" "i" "p1"
      "Bob" "ok".data).2.2.2 sampleFS (PyErr.other "boom") rfl rfl).2⟩

/-- Binding a raising computation raises. -/
theorem except_bind_error {α β : Type} (e : PyErr) (f : α → Except PyErr β) :
    (do let x ← (Except.error e : Except PyErr α); f x) = Except.error e := rfl

/-- Binding a successful computation continues with its value. -/
theorem except_bind_ok {α β : Type} (a : α) (f : α → Except PyErr β) :
    (do let x ← (Except.ok a : Except PyErr α); f x) = f a := rfl

/-- If any listed product has a raising reviews stream, the whole product
loop raises. -/
theorem buildProducts_error (fs : FS) (ps : List (String × FSDoc))
    (h : ∃ p ∈ ps, ∃ e, fs.reviews p.1 = Except.error e) :
    ∃ e, buildProducts fs ps = Except.error e := by
  induction ps with
  | nil => obtain ⟨p, hp, _⟩ := h; cases hp
  | cons hd tl ih =>
    obtain ⟨pid, pdata⟩ := hd
    cases hrev : fs.reviews pid with
    | error e =>
      exact ⟨e, by simp [buildProducts, hrev, except_bind_error]⟩
    | ok revs =>
      obtain ⟨p, hp, e, he⟩ := h
      rcases List.mem_cons.mp hp with heq | htl
      · subst heq; rw [hrev] at he; cases he
      · obtain ⟨e1, he1⟩ := ih ⟨p, htl, e, he⟩
        exact ⟨e1, by
          simp [buildProducts, hrev, he1, except_bind_error, except_bind_ok]⟩

/-- C6: `get_all_products` returns the empty list when the database handle
is `None`, when the products stream raises, and when the reviews stream of
any streamed product raises — never a partially built list. -/
theorem C6_empty_on_failure :
    get_all_products none = ([], []) ∧
    (∀ fs e, fs.products = Except.error e →
      get_all_products (some fs) =
        ([], ["Error fetching products: " ++ errStr e])) ∧
    (∀ fs ps pid pd e, fs.products = Except.ok ps → (pid, pd) ∈ ps →
      fs.reviews pid = Except.error e →
      (get_all_products (some fs)).1 = []) := by
  refine ⟨rfl, ?_, ?_⟩
  · intro fs e h
    simp [get_all_products, h, except_bind_error]
  · intro fs ps pid pd e hps hmem hrev
    obtain ⟨e1, he1⟩ :=
      buildProducts_error fs ps ⟨(pid, pd), hmem, e, hrev⟩
    simp [get_all_products, hps, he1, except_bind_ok]

/-- Witness for C6: a database whose one product has a raising reviews
stream yields the empty product list. -/
theorem C6_empty_on_failure_witness :
    (get_all_products (some badFS)).1 = [] :=
  C6_empty_on_failure.2.2 badFS [("p1", [("name", FSVal.str "Widget")])] "p1"
    [("name", FSVal.str "Widget")] (PyErr.other "deadline exceeded") rfl
    (by simp) rfl

/-- C7 counterexample: the submission with price string "nan" (so
`float(price_str)` succeeds with NaN), non-empty name and non-empty
description reaches `add_product` — the guard is `price <= 0`, which NaN
fails — yet its price is NOT strictly greater than 0. -/
theorem C7_nan_price_reaches_add_product :
    add_product_page_submit (Except.ok PyFloat.nan) "Gadget" "A gadget"
        "https://img.example/g.png" =
      PageAction.callAdd "Gadget" PyFloat.nan "A gadget"
        "https://img.example/g.png" ∧
    PyFloat.lt (PyFloat.finite 0) PyFloat.nan = false :=
  ⟨rfl, rfl⟩

/-- C7 as amended: every submission that reaches `add_product` has a
non-empty name, a non-empty description and a price that parsed as a
float and does not compare `<= 0` under IEEE comparison (strictly
positive, or NaN); every other submission only shows an error message. -/
theorem C7_amended_guard :
    ∀ (parsed : Except PyErr PyFloat) (name description image_url : String),
      (∃ p, parsed = Except.ok p ∧
        add_product_page_submit parsed name description image_url =
          PageAction.callAdd name p description image_url ∧
        name ≠ "" ∧ description ≠ "" ∧
        PyFloat.le p (PyFloat.finite 0) = false) ∨
      (∃ msg, add_product_page_submit parsed name description image_url =
        PageAction.errorShown msg) := by
  intro parsed name description image_url
  cases parsed with
  | error e => exact Or.inr ⟨_, rfl⟩
  | ok price =>
    by_cases hc : name = "" ∨ description = "" ∨
        PyFloat.le price (PyFloat.finite 0)
    · refine Or.inr
        ⟨"Please fill in all fields correctly (Name, Description, Price > 0).",
         ?_⟩
      simp only [add_product_page_submit, if_pos hc]
    · have h1 : ¬ name = "" := fun hh => hc (Or.inl hh)
      have h2 : ¬ description = "" := fun hh => hc (Or.inr (Or.inl hh))
      have h3 : ¬ (PyFloat.le price (PyFloat.finite 0) = true) :=
        fun hh => hc (Or.inr (Or.inr hh))
      have h3f : PyFloat.le price (PyFloat.finite 0) = false := by
        cases hb : PyFloat.le price (PyFloat.finite 0)
        · rfl
        · exact absurd hb h3
      refine Or.inl ⟨price, rfl, ?_, h1, h2, h3f⟩
      simp only [add_product_page_submit, if_neg hc]

/-- A weighted sum of nonnegative terms is nonnegative. -/
theorem list_wsum_nonneg (ws : List (ℚ × ℚ))
    (h : ∀ p ∈ ws, 0 ≤ p.1 ∧ 0 ≤ p.2 ∧ p.2 ≤ 100) :
    0 ≤ trust_score ws := by
  apply List.sum_nonneg
  intro x hx
  obtain ⟨p, hp, rfl⟩ := List.mem_map.mp hx
  obtain ⟨h1, h2, _⟩ := h p hp
  exact mul_nonneg h1 h2

/-- C10: with nonnegative weights summing to 1 and sub-scores in
[0, 100], the trust score lies between 0 and 100 inclusive. -/
theorem C10_trust_score_bounds :
    ∀ ws : List (ℚ × ℚ),
      (∀ p ∈ ws, 0 ≤ p.1 ∧ 0 ≤ p.2 ∧ p.2 ≤ 100) →
      (ws.map fun p => p.1).sum = 1 →
      0 ≤ trust_score ws ∧ trust_score ws ≤ 100 := by
  intro ws h hsum
  refine ⟨list_wsum_nonneg ws h, ?_⟩
  have hle : trust_score ws ≤ (ws.map fun p => 100 * p.1).sum := by
    apply List.sum_le_sum
    intro p hp
    obtain ⟨h1, _, h3⟩ := h p hp
    calc p.1 * p.2 ≤ p.1 * 100 := mul_le_mul_of_nonneg_left h3 h1
    _ = 100 * p.1 := mul_comm _ _
  have h100 : (ws.map fun p => 100 * p.1).sum = 100 := by
    rw [List.sum_map_mul_left ws (fun p => p.1) 100, hsum, mul_one]
  rw [h100] at hle
  exact hle

/-- Witness for C10 at a concrete two-component scoring configuration. -/
theorem C10_trust_score_bounds_witness :
    0 ≤ trust_score [((1 : ℚ)/2, 80), (1/2, 60)] ∧
    trust_score [((1 : ℚ)/2, 80), (1/2, 60)] ≤ 100 :=
  C10_trust_score_bounds [((1 : ℚ)/2, 80), (1/2, 60)]
    (by intro p hp; fin_cases hp <;> norm_num) (by norm_num)
